import Mathlib

/-!
Verification of the ESO Price Tracker core (src/main.py, with the older
src/create_state.py variant where the two agree): the price-text normalizer
(TTC._parse_price), the alert store operations (Database), the scheduler step
(Bot.job_check_prices), the manual check (Bot.cmd_checknow), alert creation
(Bot.cmd_add / Bot.on_message) and the row-extraction logic of
TTC.fetch_price, as a shallow embedding with theorems settling the
specification claims.

Conventions of the embedding:
- Python exceptions caught by the surrounding try/except are modelled as
  Option.none results of the helper that would raise.
- SQLite rows are modelled as a structure Alert; the alerts table is a
  List Alert.  NULL-able columns are Option-valued.
- Strings are processed as their character lists so that every operation is
  structurally recursive and kernel-evaluable.
- Python int("...") / int(float("...")) are modelled exactly on the string
  shapes reachable in this code (digits, dots, commas, stray whitespace);
  int(float(s)) is modelled as exact decimal truncation, which agrees with
  the float semantics on every magnitude this tracker handles.
-/

/-! ## Price Text Normalizer (TTC._parse_price, main.py lines 232-275) -/

/-- Numeric value of a list of decimal digit characters (Python int on an
all-digit string; leading zeros allowed). -/
def digitsToNat (l : List Char) : Nat :=
  l.foldl (fun n c => 10 * n + (c.toNat - 48)) 0

/-- Python str.strip(): drop leading and trailing whitespace. -/
def trimChars (l : List Char) : List Char :=
  ((l.dropWhile Char.isWhitespace).reverse.dropWhile Char.isWhitespace).reverse

/-- Python str.split(sep) for a one-character separator: split on every
occurrence, preserving empty pieces. -/
def splitOnChar (sep : Char) : List Char → List (List Char)
  | [] => [[]]
  | c :: cs =>
    match splitOnChar sep cs, decide (c = sep) with
    | r, true => [] :: r
    | [], false => [[c]]
    | h :: t, false => (c :: h) :: t

/-- Python int(s) for the strings that reach it in _parse_price: the
argument is stripped of surrounding whitespace; it succeeds iff a nonempty
all-digit string remains (anything else raises ValueError, caught by the
try/except which yields None). -/
def pyInt (s : List Char) : Option Int :=
  let t := trimChars s
  if t ≠ [] ∧ t.all Char.isDigit then some (digitsToNat t : Int) else none

/-- Python int(float(s)) for the strings that reach it in _parse_price:
float accepts an optional integer part, at most one dot and an optional
fractional part with at least one digit overall (anything else raises,
caught as None); int truncates, which for these non-negative values is the
integer part of the decimal literal. -/
def pyFloatTrunc (s : List Char) : Option Int :=
  let t := trimChars s
  let intPart := t.takeWhile (fun c => c ≠ '.')
  let rest := t.dropWhile (fun c => c ≠ '.')
  match rest with
  | [] =>
      if t ≠ [] ∧ t.all Char.isDigit then some (digitsToNat t : Int) else none
  | _ :: frac =>
      if (intPart.all Char.isDigit ∧ frac.all Char.isDigit) ∧
          (intPart ≠ [] ∨ frac ≠ []) then
        some (digitsToNat intPart : Int)
      else none

/-- main.py line 244: re.sub(r'[^\d\.,\s]', '', line).replace(' ', '') —
keep only digits, dots, commas and whitespace, then delete the spaces. -/
def clean_line (s : List Char) : List Char :=
  s.filter fun c =>
    (c.isDigit || c = '.' || c = ',' || c.isWhitespace) && c ≠ ' '

/-- main.py line 238: strip the whole text, split on newlines, strip each
line and keep the non-blank ones. -/
def nonblank_lines (text : List Char) : List (List Char) :=
  ((splitOnChar '\n' (trimChars text)).map trimChars).filter (fun l => l ≠ [])

/-- Remove every occurrence of a character (Python str.replace(c, '')). -/
def strip_char (s : List Char) (c : Char) : List Char :=
  s.filter fun d => d ≠ c

/-- The separator-disambiguation branch of _parse_price (main.py lines
248-267): the single candidate that the code appends to possible_prices,
with none when the conversion raises. -/
def branch_value (clean_text : List Char) : Option Int :=
  if clean_text.contains '.' && !clean_text.contains ',' then
    if clean_text.count '.' = 1 then
      if ((splitOnChar '.' clean_text).getD 1 []).length = 3 then
        pyInt (strip_char clean_text '.')
      else
        pyFloatTrunc clean_text
    else
      pyInt (strip_char clean_text '.')
  else if clean_text.contains ',' && !clean_text.contains '.' then
    pyInt (strip_char clean_text ',')
  else if clean_text.contains '.' && clean_text.contains ',' then
    pyFloatTrunc ((strip_char clean_text '.').map
      fun c => if c = ',' then '.' else c)
  else
    pyInt clean_text

/-- main.py lines 269-272: return the first candidate that is strictly
positive, otherwise None.  possible_prices always holds at most one
element, so this filters the single candidate. -/
def pick_positive (o : Option Int) : Option Int :=
  match o with
  | some price => if 0 < price then some price else none
  | none => none

/-- TTC._parse_price on the character list of the cell text (main.py lines
232-275): empty text fails; only the first non-blank line (the unit price)
is parsed; non-numeric characters are stripped; separators are
disambiguated; the result must be strictly positive. -/
def parse_price_chars (text : List Char) : Option Int :=
  if text = [] then none
  else
    match nonblank_lines text with
    | [] => none
    | unit_price_line :: _ =>
      let clean_text := clean_line unit_price_line
      if clean_text = [] then none
      else pick_positive (branch_value clean_text)

/-- TTC._parse_price (main.py lines 232-275). -/
def parse_price (price_text : String) : Option Int :=
  parse_price_chars price_text.toList

/-! ## Data model (main.py: alerts table, PriceResult dataclass) -/

/-- A row of the alerts table (main.py lines 96-118, after the migration
that adds the two nullable notification columns).  current_price, last_check
and last_notified_at default to 0; last_notified_price has no default and
is NULL until the first notification; is_active defaults to 1. -/
structure Alert where
  id : Nat
  user_id : Int
  username : String
  item_name : String
  threshold_price : Int
  current_price : Int
  last_check : Int
  is_active : Bool
  created_at : Int
  last_notified_price : Option Int
  last_notified_at : Int
deriving DecidableEq, Repr

/-- The PriceResult dataclass (main.py lines 181-188).  source ranges over
"listing" | "fallback" | "captcha" | "error". -/
structure PriceResult where
  item_id : Option Int
  price : Option Int
  guild : Option String
  location : Option String
  link : String
  source : String
deriving DecidableEq, Repr

/-! ## Alert store operations (class Database, main.py lines 88-176) -/

/-- Database.add (main.py lines 120-126): INSERT with the schema defaults
for every column not named in the statement. -/
def Database.add (db : List Alert) (freshId : Nat) (user_id : Int)
    (username item : String) (price : Int) (now : Int) : List Alert :=
  db ++ [{ id := freshId, user_id := user_id, username := username,
           item_name := item, threshold_price := price, current_price := 0,
           last_check := 0, is_active := true, created_at := now,
           last_notified_price := none, last_notified_at := 0 }]

/-- Database.set_notified (main.py lines 141-147): UPDATE
last_notified_price and last_notified_at of a single row. -/
def Database.set_notified (a : Alert) (price now : Int) : Alert :=
  { a with last_notified_price := some price, last_notified_at := now }

/-- Database.set_price (main.py lines 160-166): UPDATE current_price and
last_check of a single row. -/
def Database.set_price (a : Alert) (price now : Int) : Alert :=
  { a with current_price := price, last_check := now }

/-- Database.list_user (main.py lines 128-140): the caller's active alerts.
The ORDER BY created_at DESC clause is irrelevant to the claims settled
here and is not modelled. -/
def Database.list_user (db : List Alert) (user_id : Int) : List Alert :=
  db.filter fun a => a.user_id == user_id && a.is_active

/-- Database.deactivate (main.py lines 168-176): UPDATE is_active=0 WHERE
id=? AND user_id=?, returning rowcount > 0.  SQLite counts every row
matched by the WHERE clause, whether or not the stored value changes, so
the Bool is true iff a row with this id and owner exists — active or not. -/
def Database.deactivate (db : List Alert) (alert_id : Nat) (user_id : Int) :
    List Alert × Bool :=
  (db.map fun a =>
      if a.id == alert_id && a.user_id == user_id then
        { a with is_active := false }
      else a,
   db.any fun a => a.id == alert_id && a.user_id == user_id)

/-! ## Scheduler step (Bot.job_check_prices, main.py lines 1014-1076) -/

/-- What one turn of the scheduler loop did to one alert: the resulting
row, whether a fetch was performed, whether the captcha information message
was sent to the owner, and whether a deal notification was sent. -/
structure StepOut where
  alert : Alert
  fetched : Bool
  captcha_msg : Bool
  notified : Bool
deriving DecidableEq, Repr

/-- One iteration of the Bot.job_check_prices loop body (main.py lines
1018-1074) for one active alert, given the PriceResult the fetch would
return.  Cooldown not yet elapsed: skip with no fetch and no mutation.
Captcha outcome: one informational message, no mutation.  Otherwise a
present price is recorded via set_price, and a notification is sent iff
the price is at most the threshold and either no notification was ever
sent or the price strictly undercuts the last notified one, in which case
set_notified records it. -/
def job_step (cooldown now : Int) (a : Alert) (res : PriceResult) : StepOut :=
  if now - a.last_check < cooldown then
    { alert := a, fetched := false, captcha_msg := false, notified := false }
  else if res.source = "captcha" then
    { alert := a, fetched := true, captcha_msg := true, notified := false }
  else
    match res.price with
    | none => { alert := a, fetched := true, captcha_msg := false, notified := false }
    | some p =>
      let a1 := Database.set_price a p now
      if p ≤ a.threshold_price then
        let should_notify : Bool :=
          match a.last_notified_price with
          | none => true
          | some last => decide (p < last)
        if should_notify then
          { alert := Database.set_notified a1 p now, fetched := true,
            captcha_msg := false, notified := true }
        else
          { alert := a1, fetched := true, captcha_msg := false, notified := false }
      else
        { alert := a1, fetched := true, captcha_msg := false, notified := false }

/-! ## Manual check (Bot.cmd_checknow, main.py lines 730-784) -/

/-- One iteration of the Bot.cmd_checknow loop body (main.py lines 747-772)
for one alert, given the PriceResult the fetch would return: a present
price is recorded via set_price, and a deal message is sent whenever the
price is at most the threshold — last_notified_price is never consulted and
never written.  Returns the resulting row and whether the deal message was
sent. -/
def checknow_step (a : Alert) (res : PriceResult) (now : Int) : Alert × Bool :=
  match res.price with
  | some p => (Database.set_price a p now, decide (p ≤ a.threshold_price))
  | none => (a, false)

/-! ## Alert creation (Bot.cmd_add, main.py lines 552-620; Bot.on_message,
main.py lines 1078-1129 — identical validation) -/

/-- The validation-and-insert portion of Bot.cmd_add / Bot.on_message for an
already-parsed threshold: reject an item name shorter than 2 characters, a
non-positive threshold, an owner at the 15-alert cap, or a case-insensitive
duplicate among the owner's active alerts; otherwise insert one row.
Returns the table and whether a row was inserted. -/
def cmd_add (db : List Alert) (freshId : Nat) (user_id : Int)
    (username item : String) (thr : Int) (now : Int) : List Alert × Bool :=
  if item.length < 2 then (db, false)
  else if thr ≤ 0 then (db, false)
  else
    let existing := Database.list_user db user_id
    if 15 ≤ existing.length then (db, false)
    else if existing.any (fun al => al.item_name.toLower == item.toLower) then
      (db, false)
    else (Database.add db freshId user_id username item thr now, true)

/-! ## Row extraction (TTC.fetch_price, main.py lines 370-405) -/

/-- One result-table row as the extraction loop sees it: the inner text of
its price cell and of its guild and location cells (cells[1] and cells[2]). -/
structure RowData where
  priceText : String
  guild : String
  loc : String
deriving DecidableEq, Repr

/-- One iteration of the loop of main.py lines 377-391 on the running
(lowest_price, best_row) accumulator: a row whose price cell fails to parse
is skipped (the except/continue and the `if price_cell` guard); a parsed
price replaces the accumulator iff it is strictly lower, so the first row
attaining the minimum stays the best row. -/
def scan_step (acc : Option (Int × RowData)) (r : RowData) :
    Option (Int × RowData) :=
  match parse_price r.priceText with
  | some p =>
    match acc with
    | none => some (p, r)
    | some (lo, br) => if p < lo then some (p, r) else some (lo, br)
  | none => acc

/-- The whole accumulator loop of main.py lines 377-391 over a row list. -/
def scan_rows (acc : Option (Int × RowData)) : List RowData → Option (Int × RowData)
  | [] => acc
  | r :: rs => scan_rows (scan_step acc r) rs

/-- The parsed prices of a row list, in order (the values the loop accepts:
parse_price already guarantees strict positivity, so the code's
`current_price and current_price > 0` test is equivalent to success). -/
def parsed_prices (rows : List RowData) : List Int :=
  rows.filterMap fun r => parse_price r.priceText

/-- The extraction phase of TTC.fetch_price (main.py lines 370-405): only
the first 15 rows are scanned (rows[:15]); if any row parsed, the result is
a "listing" with the minimum price and the winning row's guild and location;
otherwise price stays None and source stays "fallback" (the NoListing
outcome). -/
def fetch_extract (item_id : Option Int) (url : String)
    (rows : List RowData) : PriceResult :=
  match scan_rows none (rows.take 15) with
  | some (p, r) =>
    { item_id := item_id, price := some p, guild := some r.guild,
      location := some r.loc, link := url, source := "listing" }
  | none =>
    { item_id := item_id, price := none, guild := none,
      location := none, link := url, source := "fallback" }

/-! ## Concrete fixtures used by the witness theorems -/

/-- A freshly created alert: owner 7, threshold 8000, never checked and
never notified (the schema defaults of Database.add). -/
def alertFresh : Alert :=
  { id := 1, user_id := 7, username := "u", item_name := "Kuta",
    threshold_price := 8000, current_price := 0, last_check := 0,
    is_active := true, created_at := 0, last_notified_price := none,
    last_notified_at := 0 }

/-- An alert that was already soft-deleted. -/
def alertInactive : Alert :=
  { alertFresh with id := 2, is_active := false }

/-- An alert that has already produced a notification at 5000 gold. -/
def alertNotified : Alert :=
  { alertFresh with
    id := 3, last_notified_price := some 5000, last_notified_at := 50 }

/-- A successful listing fetch at 6000 gold. -/
def resListing : PriceResult :=
  { item_id := none, price := some 6000, guild := some "G",
    location := some "L", link := "url", source := "listing" }

/-- A fetch that hit the captcha interstitial (main.py line 364: price,
guild and location are all None). -/
def resCaptcha : PriceResult :=
  { item_id := none, price := none, guild := none, location := none,
    link := "url", source := "captcha" }

/-- A result-table row whose price cell reads "1.234". -/
def rowA : RowData :=
  { priceText := "1.234", guild := "GuildA", loc := "Mournhold" }

/-! ## Claim theorems -/

/-- C2: the price-text parser returns exactly the locked values on the
spec's test vector — parse("1.234") = 1234, parse("1,234") = 1234,
parse("1.234,56") = 1234, parse("12.5") = 12, and parse(""), parse("abc"),
parse("0") all fail (the result must be strictly positive, so zero fails). -/
theorem C2_parse_vectors :
    parse_price "1.234" = some 1234 ∧ parse_price "1,234" = some 1234 ∧
    parse_price "1.234,56" = some 1234 ∧ parse_price "12.5" = some 12 ∧
    parse_price "" = none ∧ parse_price "abc" = none ∧
    parse_price "0" = none := by
  decide

/-- C4: an active alert whose last_check is less than cooldown seconds old
at the start of its turn is skipped entirely by the scheduler cycle — no
fetch is performed and no alert field is mutated. -/
theorem C4_cooldown_skip (cooldown now : Int) (a : Alert) (res : PriceResult)
    (h : now - a.last_check < cooldown) :
    job_step cooldown now a res =
      { alert := a, fetched := false, captcha_msg := false,
        notified := false } := by
  simp [job_step, h]

/-- Witness for C4: an alert checked 100 seconds ago with cooldown 600 is
skipped with no fetch and no mutation. -/
theorem C4_cooldown_skip_witness :
    job_step 600 100 alertFresh resListing =
      { alert := alertFresh, fetched := false, captcha_msg := false,
        notified := false } :=
  C4_cooldown_skip 600 100 alertFresh resListing (by decide)

/-- C7: when a scheduler cycle gets a captcha (ChallengeRequired) outcome
for an alert, it sends exactly one informational message to the owner and
continues with the alert row completely unchanged — in particular
last_notified_price, current_price and last_check are untouched. -/
theorem C7_captcha_frame (cooldown now : Int) (a : Alert) (res : PriceResult)
    (hcool : ¬ now - a.last_check < cooldown)
    (hsrc : res.source = "captcha") :
    job_step cooldown now a res =
      { alert := a, fetched := true, captcha_msg := true,
        notified := false } := by
  simp [job_step, hcool, hsrc]

/-- Witness for C7: a captcha outcome for a due alert leaves the row
unchanged and sends only the informational message. -/
theorem C7_captcha_frame_witness :
    job_step 600 1000 alertFresh resCaptcha =
      { alert := alertFresh, fetched := true, captcha_msg := true,
        notified := false } :=
  C7_captcha_frame 600 1000 alertFresh resCaptcha (by decide) rfl

/-- C10: the manual check-all command bypasses the deduplicating
notification policy — the deal message is sent iff the fetched price is at
most the threshold, regardless of last_notified_price, and the step never
writes last_notified_price or last_notified_at; a present price is recorded
only through set_price (current_price and last_check). -/
theorem C10_checknow_bypass (a : Alert) (res : PriceResult) (now : Int) :
    ((checknow_step a res now).2 = true ↔
      ∃ p, res.price = some p ∧ p ≤ a.threshold_price) ∧
    (checknow_step a res now).1.last_notified_price = a.last_notified_price ∧
    (checknow_step a res now).1.last_notified_at = a.last_notified_at ∧
    (res.price = none → (checknow_step a res now).1 = a) ∧
    (∀ p, res.price = some p →
      (checknow_step a res now).1 = Database.set_price a p now) := by
  cases hp : res.price with
  | none => simp [checknow_step, hp]
  | some p => simp [checknow_step, hp, Database.set_price]

/-- Witness for C10: a 6000-gold listing against an alert whose last
notified price is 5000 (so the scheduler would suppress) still records the
observation, and the deal test ignores the notification state. -/
theorem C10_checknow_bypass_witness :
    (checknow_step alertNotified resListing 1000).1 =
      Database.set_price alertNotified 6000 1000 :=
  (C10_checknow_bypass alertNotified resListing 1000).2.2.2.2 6000 rfl

/-- C5 counterexample: an alert that exists, is owned by the caller, but is
already inactive — deactivate returns true (the UPDATE's WHERE clause does
not test is_active, and SQLite counts every matched row), contradicting the
claim that it returns false unless the alert is active. -/
theorem C5_deactivate_counterexample :
    alertInactive.is_active = false ∧ alertInactive.id = 2 ∧
    alertInactive.user_id = 7 ∧
    (Database.deactivate [alertInactive] 2 7).2 = true := by
  decide

/-- C6 counterexample: a one-character item name with a positive threshold,
no duplicates and zero existing alerts — none of the claim's three failure
conditions holds, yet creation fails and inserts nothing, because cmd_add
also rejects item names shorter than 2 characters. -/
theorem C6_create_counterexample :
    (0 : Int) < 100 ∧ Database.list_user [] 1 = [] ∧
    cmd_add [] 1 1 "u" "x" 100 0 = ([], false) := by
  decide

/-- Any value that survives the positivity filter at the end of
_parse_price is strictly positive. -/
theorem pick_positive_pos (o : Option Int) (n : Int)
    (h : pick_positive o = some n) : 0 < n := by
  rcases o with _ | price
  · simp [pick_positive] at h
  · simp only [pick_positive] at h
    split at h
    · cases h
      assumption
    · cases h

/-- C9: the price-text parser is total — for every input string it returns
either a strictly positive integer or none; Python exceptions are caught by
the try/except and likewise yield None. -/
theorem C9_parse_total_positive (s : String) :
    parse_price s = none ∨ ∃ n : Int, parse_price s = some n ∧ 0 < n := by
  cases h : parse_price s with
  | none => exact Or.inl rfl
  | some n =>
    refine Or.inr ⟨n, rfl, ?_⟩
    unfold parse_price parse_price_chars at h
    split at h
    · cases h
    · split at h
      · cases h
      · simp only [] at h
        split at h
        · cases h
        · exact pick_positive_pos _ _ h
/-- C1: for a due alert and a fetch that did not hit the captcha, the
scheduler notifies iff the fetched price is at most the threshold and
either no notification was ever sent or the price is strictly below the
last notified one; on notification it sets last_notified_price to the price
and last_notified_at to now; on suppression and on threshold miss it leaves
both untouched; an absent price never notifies and mutates nothing. -/
theorem C1_notify_decision (cooldown now : Int) (a : Alert) (res : PriceResult)
    (hcool : ¬ now - a.last_check < cooldown)
    (hsrc : res.source ≠ "captcha") :
    (res.price = none →
      (job_step cooldown now a res).notified = false ∧
      (job_step cooldown now a res).alert = a) ∧
    ∀ p : Int, res.price = some p →
      ((job_step cooldown now a res).notified = true ↔
        p ≤ a.threshold_price ∧
          (a.last_notified_price = none ∨
            ∃ last, a.last_notified_price = some last ∧ p < last)) ∧
      ((job_step cooldown now a res).notified = true →
        (job_step cooldown now a res).alert.last_notified_price = some p ∧
        (job_step cooldown now a res).alert.last_notified_at = now) ∧
      ((job_step cooldown now a res).notified = false →
        (job_step cooldown now a res).alert.last_notified_price =
          a.last_notified_price ∧
        (job_step cooldown now a res).alert.last_notified_at =
          a.last_notified_at) := by
  constructor
  · intro hnone
    simp [job_step, hcool, hsrc, hnone]
  · intro p hp
    by_cases hThr : p ≤ a.threshold_price
    · rcases hln : a.last_notified_price with _ | last
      · simp [job_step, hcool, hsrc, hp, hln, hThr,
          Database.set_notified, Database.set_price]
      · by_cases hlt : p < last
        · simp [job_step, hcool, hsrc, hp, hln, hThr, hlt,
            Database.set_notified, Database.set_price]
        · simp [job_step, hcool, hsrc, hp, hln, hThr, hlt,
            Database.set_notified, Database.set_price]
    · simp [job_step, hcool, hsrc, hp, hThr,
        Database.set_price]

/-- Witness for C1: threshold 8000, never notified, fetched price 6000 —
the notify condition of the claim is met. -/
theorem C1_notify_decision_witness :
    (job_step 600 1000 alertFresh resListing).notified = true ↔
      (6000 : Int) ≤ alertFresh.threshold_price ∧
        (alertFresh.last_notified_price = none ∨
          ∃ last, alertFresh.last_notified_price = some last ∧
            (6000 : Int) < last) :=
  ((C1_notify_decision 600 1000 alertFresh resListing (by decide)
    (by decide)).2 6000 rfl).1

/-- C3: one scheduler turn either leaves last_notified_price (and
last_notified_at) unchanged, or writes the first value ever, or writes a
value strictly smaller than the previous one — the core dedup invariant;
set_price, the only other row update of the cycle, never touches the
notification columns. -/
theorem C3_last_notified_monotone (cooldown now : Int) (a : Alert)
    (res : PriceResult) :
    (∀ q t : Int, (Database.set_price a q t).last_notified_price =
      a.last_notified_price) ∧
    (((job_step cooldown now a res).alert.last_notified_price =
        a.last_notified_price ∧
      (job_step cooldown now a res).alert.last_notified_at =
        a.last_notified_at) ∨
     (a.last_notified_price = none ∧
      ∃ p, (job_step cooldown now a res).alert.last_notified_price = some p) ∨
     (∃ last p, a.last_notified_price = some last ∧
       (job_step cooldown now a res).alert.last_notified_price = some p ∧
       p < last)) := by
  refine ⟨fun q t => rfl, ?_⟩
  by_cases hcool : now - a.last_check < cooldown
  · left
    simp [job_step, hcool]
  · by_cases hsrc : res.source = "captcha"
    · left
      simp [job_step, hcool, hsrc]
    · cases hp : res.price with
      | none => left; simp [job_step, hcool, hsrc, hp]
      | some p =>
        by_cases hThr : p ≤ a.threshold_price
        · rcases hln : a.last_notified_price with _ | last
          · right; left
            refine ⟨rfl, p, ?_⟩
            simp [job_step, hcool, hsrc, hp, hThr, hln,
              Database.set_notified, Database.set_price]
          · by_cases hlt : p < last
            · right; right
              refine ⟨last, p, rfl, ?_, hlt⟩
              simp [job_step, hcool, hsrc, hp, hThr, hln, hlt,
                Database.set_notified, Database.set_price]
            · left
              simp [job_step, hcool, hsrc, hp, hThr, hln, hlt,
                Database.set_price]
        · left
          simp [job_step, hcool, hsrc, hp, hThr, Database.set_price]
/-- C5 (amended): deactivate(id, owner) returns true iff some alert with
that id and owner exists in the table, active or not (the UPDATE's WHERE
clause does not test is_active); when no such alert exists — in particular
for a wrong owner — it returns false and mutates nothing; every row it
matches ends up inactive. -/
theorem C5_deactivate_owner_check (db : List Alert) (alert_id : Nat)
    (user_id : Int) :
    ((Database.deactivate db alert_id user_id).2 = true ↔
      ∃ a ∈ db, a.id = alert_id ∧ a.user_id = user_id) ∧
    ((∀ a ∈ db, ¬(a.id = alert_id ∧ a.user_id = user_id)) →
      Database.deactivate db alert_id user_id = (db, false)) ∧
    (∀ a ∈ (Database.deactivate db alert_id user_id).1,
      a.id = alert_id → a.user_id = user_id → a.is_active = false) := by
  refine ⟨?_, ?_, ?_⟩
  · simp [Database.deactivate, List.any_eq_true]
  · intro hno
    unfold Database.deactivate
    have hmap : db.map (fun a =>
        if a.id == alert_id && a.user_id == user_id then
          { a with is_active := false }
        else a) = db := by
      conv_rhs => rw [← List.map_id db]
      apply List.map_congr_left
      intro a ha
      have hf : ¬(a.id == alert_id && a.user_id == user_id) = true := by
        simp only [Bool.and_eq_true, beq_iff_eq]
        intro hcon
        exact hno a ha hcon
      simp [hf]
    have hany : (db.any fun a =>
        a.id == alert_id && a.user_id == user_id) = false := by
      rw [List.any_eq_false]
      intro a ha
      simpa using hno a ha
    rw [hmap, hany]
  · intro a ha hid huid
    unfold Database.deactivate at ha
    simp only [List.mem_map] at ha
    obtain ⟨b, hb, hba⟩ := ha
    by_cases hhit : (b.id == alert_id && b.user_id == user_id) = true
    · rw [if_pos hhit] at hba
      rw [← hba]
    · rw [if_neg hhit] at hba
      subst hba
      exact absurd (by simp [hid, huid]) hhit

/-- Witness for C5: a wrong owner (8 instead of 7) gets false and the table
is unchanged. -/
theorem C5_deactivate_owner_check_witness :
    Database.deactivate [alertFresh] 1 8 = ([alertFresh], false) :=
  (C5_deactivate_owner_check [alertFresh] 1 8).2.1 (by decide)

/-- C6 (amended): alert creation fails — no row inserted — iff the item
name is shorter than 2 characters, or the threshold is non-positive, or the
owner already has 15 or more active alerts, or an active alert with the
same owner and case-insensitively equal item name exists; otherwise it
appends exactly one new active alert with the given owner, name and
threshold. -/
theorem C6_create_validation (db : List Alert) (freshId : Nat)
    (user_id : Int) (username item : String) (thr : Int) (now : Int) :
    ((cmd_add db freshId user_id username item thr now).2 = false ↔
      item.length < 2 ∨ thr ≤ 0 ∨
      15 ≤ (Database.list_user db user_id).length ∨
      ∃ a ∈ db, a.user_id = user_id ∧ a.is_active = true ∧
        a.item_name.toLower = item.toLower) ∧
    ((cmd_add db freshId user_id username item thr now).2 = false →
      (cmd_add db freshId user_id username item thr now).1 = db) ∧
    ((cmd_add db freshId user_id username item thr now).2 = true →
      (cmd_add db freshId user_id username item thr now).1 =
        Database.add db freshId user_id username item thr now) := by
  have hdup : ((Database.list_user db user_id).any
      fun al => al.item_name.toLower == item.toLower) = true ↔
      ∃ a ∈ db, a.user_id = user_id ∧ a.is_active = true ∧
        a.item_name.toLower = item.toLower := by
    rw [List.any_eq_true]
    constructor
    · rintro ⟨x, hx, hl⟩
      rw [Database.list_user, List.mem_filter] at hx
      have hx2 := hx.2
      simp only [Bool.and_eq_true, beq_iff_eq] at hx2
      exact ⟨x, hx.1, hx2.1, hx2.2, by simpa using hl⟩
    · rintro ⟨a, ha, hu, hact, hl⟩
      refine ⟨a, ?_, by simpa using hl⟩
      rw [Database.list_user, List.mem_filter]
      exact ⟨ha, by simp [hu, hact]⟩
  unfold cmd_add
  by_cases h1 : item.length < 2
  · simp [h1]
  · by_cases h2 : thr ≤ 0
    · simp [h1, h2]
    · by_cases h3 : 15 ≤ (Database.list_user db user_id).length
      · simp [h1, h2, h3]
      · by_cases h4 : ((Database.list_user db user_id).any
            fun al => al.item_name.toLower == item.toLower) = true
        · simp [h1, h2, h3, h4, hdup.mp h4]
        · have h4x : ¬ ∃ a ∈ db, a.user_id = user_id ∧
              a.is_active = true ∧ a.item_name.toLower = item.toLower :=
            fun hc => h4 (hdup.mpr hc)
          simp [h1, h2, h3, h4, h4x]

/-- Witness for C6: a valid creation (item "Kuta", threshold 8000, empty
table) inserts exactly the one new row. -/
theorem C6_create_validation_witness :
    (cmd_add [] 5 1 "u" "Kuta" 8000 0).1 =
      Database.add [] 5 1 "u" "Kuta" 8000 0 :=
  (C6_create_validation [] 5 1 "u" "Kuta" 8000 0).2.2 (by decide)
/-- scan_step of a row that fails to parse leaves the accumulator alone. -/
theorem scan_step_skip (acc : Option (Int × RowData)) (r : RowData)
    (hp : parse_price r.priceText = none) : scan_step acc r = acc := by
  simp [scan_step, hp]

/-- scan_step of a row that parses to q yields an accumulator holding a
price that is at most q, at most any previous accumulator price, and is
either the new (q, r) pair or the unchanged previous pair. -/
theorem scan_step_parsed (acc : Option (Int × RowData)) (r : RowData)
    (q : Int) (hp : parse_price r.priceText = some q) :
    ∃ y, scan_step acc r = some y ∧ y.1 ≤ q ∧
      (∀ x, acc = some x → y.1 ≤ x.1) ∧
      (y = (q, r) ∨ acc = some y) := by
  rcases acc with _ | ⟨lo, br⟩
  · exact ⟨(q, r), by simp [scan_step, hp], le_refl q, by simp, Or.inl rfl⟩
  · by_cases hlt : q < lo
    · refine ⟨(q, r), by simp [scan_step, hp, hlt], le_refl q, ?_, Or.inl rfl⟩
      intro x hx
      cases hx
      exact le_of_lt hlt
    · refine ⟨(lo, br), by simp [scan_step, hp, hlt], not_lt.mp hlt, ?_,
        Or.inr rfl⟩
      intro x hx
      cases hx
      exact le_refl lo

/-- The loop returns none exactly when it started with nothing and no row
parsed. -/
theorem scan_rows_eq_none_iff (l : List RowData) :
    ∀ acc, scan_rows acc l = none ↔ acc = none ∧ parsed_prices l = [] := by
  induction l with
  | nil => intro acc; simp [scan_rows, parsed_prices]
  | cons r rs ih =>
    intro acc
    rw [scan_rows, ih (scan_step acc r)]
    cases hp : parse_price r.priceText with
    | none =>
      rw [scan_step_skip acc r hp]
      simp [parsed_prices, List.filterMap_cons, hp]
    | some q =>
      obtain ⟨y, hy, -, -, -⟩ := scan_step_parsed acc r q hp
      rw [hy]
      simp [parsed_prices, List.filterMap_cons, hp]

/-- If the loop ends with (p, r) then p is a lower bound of every parsed
price and of any starting accumulator, and (p, r) is either the unchanged
starting accumulator or a genuine row of the list with parse result p. -/
theorem scan_rows_spec (l : List RowData) :
    ∀ (acc : Option (Int × RowData)) (p : Int) (r : RowData),
      scan_rows acc l = some (p, r) →
      (∀ q ∈ parsed_prices l, p ≤ q) ∧
      (∀ x, acc = some x → p ≤ x.1) ∧
      (acc = some (p, r) ∨ (r ∈ l ∧ parse_price r.priceText = some p)) := by
  induction l with
  | nil =>
    intro acc p r h
    rw [scan_rows] at h
    refine ⟨by simp [parsed_prices], ?_, Or.inl h⟩
    intro x hx
    rw [h] at hx
    cases hx
    exact le_refl p
  | cons r0 rs ih =>
    intro acc p r h
    rw [scan_rows] at h
    obtain ⟨hmin, hacc, hprov⟩ := ih (scan_step acc r0) p r h
    cases hp : parse_price r0.priceText with
    | none =>
      rw [scan_step_skip acc r0 hp] at hacc hprov
      refine ⟨?_, hacc, ?_⟩
      · intro q hq
        rw [parsed_prices, List.filterMap_cons, hp] at hq
        exact hmin q hq
      · rcases hprov with hp1 | ⟨hmem, hpr⟩
        · exact Or.inl hp1
        · exact Or.inr ⟨List.mem_cons_of_mem r0 hmem, hpr⟩
    | some q0 =>
      obtain ⟨y, hy, hyq, hyacc, hyor⟩ := scan_step_parsed acc r0 q0 hp
      rw [hy] at hacc hprov
      refine ⟨?_, ?_, ?_⟩
      · intro q hq
        rw [parsed_prices, List.filterMap_cons, hp] at hq
        rcases List.mem_cons.mp hq with rfl | hq2
        · exact le_trans (hacc y rfl) hyq
        · exact hmin q hq2
      · intro x hx
        exact le_trans (hacc y rfl) (hyacc x hx)
      · rcases hprov with hp1 | ⟨hmem, hpr⟩
        · have hyval : y = (p, r) := Option.some.inj hp1
          rcases hyor with h3 | h3
          · rw [hyval] at h3
            have hpq : p = q0 := congrArg Prod.fst h3
            have hrr : r = r0 := congrArg Prod.snd h3
            refine Or.inr ⟨?_, ?_⟩
            · rw [hrr]
              exact List.mem_cons_self r0 rs
            · rw [hrr, hpq]
              exact hp
          · rw [hyval] at h3
            exact Or.inl h3
        · exact Or.inr ⟨List.mem_cons_of_mem r0 hmem, hpr⟩
/-- C8: extraction considers at most 15 rows; rows whose price cell fails
normalization are skipped without aborting (the minimum ranges over the
successfully parsed rows only); the reported price is the minimum over all
parsed rows with the winning row's seller and location captured; and when
zero rows parse the outcome is "fallback" (NoListing) with no price. -/
theorem C8_extraction (item_id : Option Int) (url : String)
    (rows : List RowData) :
    fetch_extract item_id url rows =
      fetch_extract item_id url (rows.take 15) ∧
    (parsed_prices (rows.take 15) = [] →
      fetch_extract item_id url rows =
        { item_id := item_id, price := none, guild := none,
          location := none, link := url, source := "fallback" }) ∧
    (parsed_prices (rows.take 15) ≠ [] →
      ∃ p r, r ∈ rows.take 15 ∧ parse_price r.priceText = some p ∧
        (∀ q ∈ parsed_prices (rows.take 15), p ≤ q) ∧
        fetch_extract item_id url rows =
          { item_id := item_id, price := some p, guild := some r.guild,
            location := some r.loc, link := url, source := "listing" }) := by
  refine ⟨?_, ?_, ?_⟩
  · simp [fetch_extract, List.take_take]
  · intro hemp
    unfold fetch_extract
    rw [(scan_rows_eq_none_iff (rows.take 15) none).mpr ⟨rfl, hemp⟩]
  · intro hne
    cases hs : scan_rows none (rows.take 15) with
    | none => exact absurd ((scan_rows_eq_none_iff _ _).mp hs).2 hne
    | some pr =>
      obtain ⟨p, r⟩ := pr
      obtain ⟨hmin, -, hprov⟩ := scan_rows_spec (rows.take 15) none p r hs
      rcases hprov with hbad | ⟨hmem, hpr⟩
      · exact Option.noConfusion hbad
      · refine ⟨p, r, hmem, hpr, hmin, ?_⟩
        unfold fetch_extract
        rw [hs]

/-- Witness for C8: a single row reading "1.234" yields the same result as
its 15-row truncation. -/
theorem C8_extraction_witness :
    fetch_extract none "url" [rowA] =
      fetch_extract none "url" ([rowA].take 15) :=
  (C8_extraction none "url" [rowA]).1
